import Mathlib

/-!
Verification of `rpi_recorder` (src/recorder.py): a voice-activity-triggered
4-channel audio recorder.  The Python source is shallowly embedded below:

* configuration constants are transcribed literally (with real-valued
  configuration modelled exactly in `ℚ`);
* pure byte-level transforms (`mix4_to_stereo_sum`, `normalize_audio_file`)
  are modelled over lists of integer samples;
* the capture loop of `main` (recorder.py lines 463-573) is modelled as a
  step function on an explicit state, with wall-clock time idealised as
  advancing by exactly one block duration per loop iteration, and side
  effects reified into an `Effect` trace;
* the fallible external collaborators (HTTP delivery, the OLED device) are
  modelled with explicit outcome values / `Except`.
-/

namespace RpiRecorder

/-! ## Configuration constants (recorder.py lines 36-45) -/

def SAMPLE_RATE : ℕ := 44100

def CHANNELS : ℕ := 4

/-- `BLOCK_DURATION = 0.1` (seconds), modelled exactly in `ℚ`. -/
def BLOCK_DURATION : ℚ := 1 / 10

/-- `BLOCK_SIZE = int(SAMPLE_RATE * BLOCK_DURATION)` -/
def BLOCK_SIZE : ℕ := 4410

def THRESHOLD : ℤ := 10000

/-- `SILENCE_SECONDS = 2.0` -/
def SILENCE_SECONDS : ℚ := 2

/-- `MIN_RECORD_SECONDS = 0.7` -/
def MIN_RECORD_SECONDS : ℚ := 7 / 10

/-! ## Startup webhook configuration check (recorder.py lines 47-51)

```python
WEBHOOK_URL = os.getenv("WEBHOOK_URL")
if not WEBHOOK_URL and os.getenv("WEBHOOK_ENABLED", "false").lower() == "true":
    logger.error(...)
    exit(1)
WEBHOOK_ENABLED = os.getenv("WEBHOOK_ENABLED", "true").lower() == "true"
```

The environment is modelled as the pair of `Option String` values returned by
`os.getenv` for the two variables (`none` = unset).  Python's `not s` on a
string is true exactly when the string is `None` or empty. -/

/-- Python truthiness test `not WEBHOOK_URL` for `WEBHOOK_URL = os.getenv(...)`. -/
def webhook_url_falsy (url : Option String) : Bool :=
  match url with
  | none => true
  | some s => s.isEmpty

/-- Python `str.lower()`, character by character (the configuration values
compared against `"true"` are ASCII). -/
def str_lower (s : String) : String :=
  String.mk (s.data.map Char.toLower)

/-- The condition of the fatal startup check on line 48:
`not WEBHOOK_URL and os.getenv("WEBHOOK_ENABLED", "false").lower() == "true"`.
`true` means the process calls `exit(1)` before entering the capture loop. -/
def startup_fatal (url enabled : Option String) : Bool :=
  webhook_url_falsy url && (str_lower (enabled.getD "false") == "true")

/-- The runtime delivery-enabled flag computed on line 51:
`WEBHOOK_ENABLED = os.getenv("WEBHOOK_ENABLED", "true").lower() == "true"`.
Note the default differs from the one used in the startup check. -/
def webhook_enabled_flag (enabled : Option String) : Bool :=
  str_lower (enabled.getD "true") == "true"

/-! ## Channel mixer (recorder.py lines 58-74, `mix4_to_stereo_sum`)

`struct.iter_unpack("<hhhh", raw_bytes)` yields one 4-tuple of int16 samples
per complete frame; the input is modelled as the list of those frames.  Per
frame the code computes `m = ch1+ch2+ch3+ch4`, clamps with
`m = max(-32768, min(32767, m))` and emits `struct.pack("<hh", m, m)`. -/

/-- `max(-32768, min(32767, v))` from line 71 (also the clamp performed by
`audioop`, see `fbound` in CPython's `audioop.c`). -/
def clamp16 (v : ℤ) : ℤ :=
  max (-32768) (min 32767 v)

/-- `mix4_to_stereo_sum` over a list of complete 4-channel int16 frames;
the output is the flat interleaved stereo sample list. -/
def mix4_to_stereo_sum : List (ℤ × ℤ × ℤ × ℤ) → List ℤ
  | [] => []
  | (ch1, ch2, ch3, ch4) :: rest =>
      let m := clamp16 (ch1 + ch2 + ch3 + ch4)
      m :: m :: mix4_to_stereo_sum rest

/-! ## Loudness normalizer (recorder.py lines 334-368, `normalize_audio_file`)

The file is modelled as its list of int16 samples.
`audioop.max(frames, 2)` is the maximum absolute sample value;
`audioop.mul(frames, 2, factor)` multiplies each sample by the float
`factor` and converts back with CPython's `fbound`, which rounds toward
minus infinity (`floor`) and clips to `[-32768, 32767]`.  The float
`scale_factor` is modelled exactly as a rational. -/

/-- `audioop.max(frames, 2)`: peak absolute sample value (0 on empty input). -/
def audioop_max (frames : List ℤ) : ℤ :=
  (frames.map (fun s => |s|)).foldr max 0

/-- `target_level = int(32767 * 0.95)`; `32767 * 0.95 = 31128.65`, truncated. -/
def target_level : ℤ := 31128

/-- `audioop.mul(frames, 2, factor)`: each sample is multiplied by `factor`
and converted back to int16 by flooring and clamping (CPython `fbound`). -/
def audioop_mul (frames : List ℤ) (factor : ℚ) : List ℤ :=
  frames.map (fun s => clamp16 ⌊(s : ℚ) * factor⌋)

/-- `normalize_audio_file` (the sample-level transform it performs on the
file contents): no-op when the peak is zero or the scale factor is ≤ 1,
otherwise `audioop.mul` by `target_level / peak`. -/
def normalize_audio_file (frames : List ℤ) : List ℤ :=
  let peak := audioop_max frames
  if peak = 0 then frames
  else
    let scale_factor : ℚ := (target_level : ℚ) / (peak : ℚ)
    if scale_factor ≤ 1 then frames
    else audioop_mul frames scale_factor

/-- The normalizer as the specification describes it, differing from the
source only in the final conversion: multiply by `scale` *rounding to
nearest integer* (instead of the source's floor), then clamp. -/
def normalize_spec_nearest (frames : List ℤ) : List ℤ :=
  let peak := audioop_max frames
  if peak = 0 then frames
  else
    let scale_factor : ℚ := (target_level : ℚ) / (peak : ℚ)
    if scale_factor ≤ 1 then frames
    else frames.map (fun s => clamp16 (round ((s : ℚ) * scale_factor)))

/-! ## Capture loop state machine (recorder.py `main`, lines 453-573)

The loop state is `recording`, `silence_time`, the wall-clock time elapsed
since `record_start_time`, and the frames written to the open wav file
(`wav_file`/`current_filename`; the buffer is `[]` when idle).  Wall-clock
time is idealised: the blocking `stream.read(BLOCK_SIZE)` of a real-time
stream returns one block per `BLOCK_DURATION`, so `time.time()` advances by
exactly `BLOCK_DURATION` between consecutive loop iterations.

Side effects of the loop are reified into an `Effect` trace; `closeWav`
carries the `duration = time.time() - record_start_time` computed on
line 512/548. -/

inductive Effect where
  /-- `open_new_wav()` (line 494) -/
  | openNewWav
  /-- `wav_file.writeframes(data)` (lines 499 and 504) -/
  | writeFrames
  /-- `show_rec(device)` (line 502) -/
  | showRec
  /-- `wav_file.close()` with the computed duration (lines 512-513 / 548-549) -/
  | closeWav (duration : ℚ)
  /-- `os.remove(current_filename)` in the too-short branch (line 517 / 568) -/
  | removeShort
  /-- `convert_4ch_to_stereo(current_filename)` (line 524 / 554) -/
  | convertToStereo
  /-- `normalize_audio_file(stereo_filename)` (line 525 / 555) -/
  | normalizeStereo
  /-- `send_webhook_async(stereo_filename)`: creation of a delivery job for
  the stereo file (line 527 / 557) -/
  | sendWebhookStereo
  /-- the "Webhook disabled - recording saved locally" branch (line 529 / 559) -/
  | savedLocally
  /-- `os.remove(current_filename)`: cleanup deletion of the raw 4-channel
  backing file after stereo conversion (line 532 / 562) -/
  | removeRaw4ch
  /-- `show_ready(device)` (line 543 / 573) -/
  | showReady
  deriving Repr, DecidableEq

structure RecState where
  /-- `recording` flag (line 453) -/
  recording : Bool
  /-- `silence_time` (line 457) -/
  silence_time : ℚ
  /-- `time.time() - record_start_time` at the current iteration (line 456);
  meaningful only while recording -/
  elapsed : ℚ
  /-- frames written to the open 4-channel wav file; `[]` when idle -/
  buffer : List (List ℤ)
  deriving Repr, DecidableEq

/-- The loop state after lines 453-457 (and after each segment completes). -/
def idleState : RecState :=
  { recording := false, silence_time := 0, elapsed := 0, buffer := [] }

/-- Segment-completion code, lines 511-543 (after `silence_time >=
SILENCE_SECONDS` fired): close the wav, then either delete the too-short
recording or convert / normalize / deliver it and clean up the raw file,
then show the ready screen. -/
def close_segment (webhook_enabled : Bool) (duration : ℚ) : List Effect :=
  Effect.closeWav duration ::
    (if duration < MIN_RECORD_SECONDS then
      [Effect.removeShort]
    else
      [Effect.convertToStereo, Effect.normalizeStereo] ++
        (if webhook_enabled then [Effect.sendWebhookStereo] else [Effect.savedLocally]) ++
        [Effect.removeRaw4ch]) ++
    [Effect.showReady]

/-- The `except KeyboardInterrupt` shutdown handler, lines 545-573: if a
segment is active, close it, apply the same minimum-duration check (with the
branches written in the source's order: `duration >= MIN_RECORD_SECONDS`
first), and always show the ready screen. -/
def interrupt_finalize (webhook_enabled : Bool) (recording : Bool) (duration : ℚ) :
    List Effect :=
  (if recording then
    Effect.closeWav duration ::
      (if MIN_RECORD_SECONDS ≤ duration then
        [Effect.convertToStereo, Effect.normalizeStereo] ++
          (if webhook_enabled then [Effect.sendWebhookStereo] else [Effect.savedLocally]) ++
          [Effect.removeRaw4ch]
      else [Effect.removeShort])
  else []) ++ [Effect.showReady]

/-- One iteration of the capture loop (lines 472-543) on a block with
aggregate RMS level `level` and raw data `data`.  Wall-clock time advances
by `BLOCK_DURATION` between iterations, so while recording the elapsed time
since `record_start_time` grows by one block per step. -/
def main_step (webhook_enabled : Bool) (s : RecState) (level : ℤ) (data : List ℤ) :
    RecState × List Effect :=
  if s.recording = false then
    if THRESHOLD ≤ level then
      ({ recording := true, silence_time := 0, elapsed := 0, buffer := [data] },
        [Effect.openNewWav, Effect.writeFrames, Effect.showRec])
    else (s, [])
  else
    let elapsed := s.elapsed + BLOCK_DURATION
    let buffer := s.buffer ++ [data]
    let silence_time :=
      if level < THRESHOLD then s.silence_time + BLOCK_DURATION else 0
    if SILENCE_SECONDS ≤ silence_time then
      (idleState, Effect.writeFrames :: close_segment webhook_enabled elapsed)
    else
      ({ recording := true, silence_time := silence_time, elapsed := elapsed,
         buffer := buffer }, [Effect.writeFrames])

/-- Run the capture loop over a list of `(level, data)` blocks, collecting
the effect trace. -/
def main_run (webhook_enabled : Bool) :
    RecState → List (ℤ × List ℤ) → RecState × List Effect
  | s, [] => (s, [])
  | s, (level, data) :: rest =>
      let step := main_step webhook_enabled s level data
      let run := main_run webhook_enabled step.1 rest
      (run.1, step.2 ++ run.2)

/-! ## Delivery subsystem (recorder.py lines 266-331, `send_webhook`)

The two `requests.post` calls are modelled by the outcomes the surrounding
`try`/`except` clauses distinguish; each issued POST is recorded with its
`verify` flag.  `send_webhook` itself is a total function into `WebhookOutcome`
— every exception category is caught by one of its handlers, so nothing
propagates (and it runs on a daemon thread started by `send_webhook_async`,
decoupled from the capture loop). -/

/-- Outcome of one `requests.post` call, as discriminated by the handlers. -/
inductive HttpResult where
  /-- the call returned a response with this status code -/
  | ok (status : ℕ)
  /-- `requests.exceptions.SSLError` -/
  | sslError
  /-- `requests.exceptions.ConnectionError` -/
  | connectionError
  /-- `requests.exceptions.Timeout` -/
  | timeoutError
  /-- any other exception -/
  | otherError
  deriving Repr, DecidableEq

/-- A POST attempt actually issued, with its TLS `verify` flag. -/
structure PostAttempt where
  verify : Bool
  deriving Repr, DecidableEq

/-- Final categorized outcome logged by `send_webhook`. -/
inductive WebhookOutcome where
  | sentOk
  | failedStatus (status : ℕ)
  | retrySentOk
  | retryFailedStatus (status : ℕ)
  | retryFailed
  | connFailed
  | timedOut
  | otherFailed
  deriving Repr, DecidableEq

/-- `send_webhook` (lines 281-323), given the outcome the network would
produce for the first POST (`verify=True`) and, if reached, the second
(`verify=False`).  Returns the POSTs issued and the logged outcome. -/
def send_webhook (first second : HttpResult) : List PostAttempt × WebhookOutcome :=
  match first with
  | HttpResult.ok status =>
      if status = 200 then ([⟨true⟩], WebhookOutcome.sentOk)
      else ([⟨true⟩], WebhookOutcome.failedStatus status)
  | HttpResult.sslError =>
      -- `except requests.exceptions.SSLError`: retry once with verify=False,
      -- the retry wrapped in a catch-all `except Exception`.
      match second with
      | HttpResult.ok status =>
          if status = 200 then ([⟨true⟩, ⟨false⟩], WebhookOutcome.retrySentOk)
          else ([⟨true⟩, ⟨false⟩], WebhookOutcome.retryFailedStatus status)
      | _ => ([⟨true⟩, ⟨false⟩], WebhookOutcome.retryFailed)
  | HttpResult.connectionError => ([⟨true⟩], WebhookOutcome.connFailed)
  | HttpResult.timeoutError => ([⟨true⟩], WebhookOutcome.timedOut)
  | HttpResult.otherError => ([⟨true⟩], WebhookOutcome.otherFailed)

/-! ## Status display (recorder.py lines 79-87 and 227-242)

`init_display` wraps device construction in `try`/`except`, returning `None`
on failure.  `show_ready`/`show_rec` only guard against `device is None`:
the image drawing is pure, but the trailing `device.display(img)` call is
*not* wrapped, so its outcome is whatever the device produces.  The device
is modelled with the outcome its `display` method produces. -/

structure OledDevice where
  width : ℕ
  height : ℕ
  /-- outcome of calling `device.display(img)` -/
  displayResult : Except String Unit

/-- `init_display` (lines 79-87): the whole construction attempt is inside
`try`/`except`, so a failing construction yields `None`. -/
def init_display (hardware : Except String OledDevice) : Option OledDevice :=
  match hardware with
  | Except.ok d => some d
  | Except.error _ => none

/-- `show_ready` (lines 227-233): no-op when the device is `None`, otherwise
draw the READY screen and call `device.display(img)` with no exception
handling around it. -/
def show_ready (device : Option OledDevice) : Except String Unit :=
  match device with
  | none => Except.ok ()
  | some d => d.displayResult

/-- `show_rec` (lines 236-242): same shape as `show_ready`. -/
def show_rec (device : Option OledDevice) : Except String Unit :=
  match device with
  | none => Except.ok ()
  | some d => d.displayResult

/-! ## Helper lemmas -/

theorem clamp16_bounds (v : ℤ) : -32768 ≤ clamp16 v ∧ clamp16 v ≤ 32767 := by
  unfold clamp16
  constructor
  · exact le_max_left _ _
  · exact max_le (by norm_num) (min_le_left _ _)

theorem audioop_max_nonneg (frames : List ℤ) : 0 ≤ audioop_max frames := by
  unfold audioop_max
  induction frames with
  | nil => simp
  | cons a rest ih =>
      simp only [List.map_cons, List.foldr_cons]
      exact le_max_of_le_right ih

/-! ## Claim theorems

Batteries marks the `Rat` arithmetic operations `@[irreducible]`, which
blocks `decide`'s evaluation of closed rational computations; restoring the
default reducibility locally lets the concrete runs below evaluate. -/

section DecideRat

attribute [local semireducible] Rat.mul Rat.inv Rat.add Rat.sub

/-- Claim C1 (code bug, evaluated at the failing input): with both
`WEBHOOK_URL` and `WEBHOOK_ENABLED` unset, the runtime flag computed on
line 51 says delivery is enabled (its default is `"true"`) and the endpoint
is absent, yet the startup check on line 48 (whose default is `"false"`)
does not fire, so the process enters the capture loop instead of exiting. -/
theorem c1_startup_check_misses_default_enabled :
    webhook_url_falsy none = true ∧ webhook_enabled_flag none = true ∧
    startup_fatal none none = false := by
  decide

/-- Claim C4, counterexample to the rounding mode: on the two-sample buffer
`[16, 1]` (peak 16, scale 31128/16 = 1945.5 exactly) the source floors and
produces `[31128, 1945]`, while the claimed round-to-nearest conversion
produces `[31128, 1946]`. -/
theorem c4_rounds_down_not_nearest :
    normalize_audio_file [16, 1] = [31128, 1945] ∧
    normalize_spec_nearest [16, 1] = [31128, 1946] := by
  decide

/-- Claim C4 as amended: the normalizer is a no-op when the peak is zero or
when the peak is already at least the 95% target (scale ≤ 1); otherwise
every sample is multiplied by `target_level / peak` with the result rounded
*down* (floor, not to nearest) and clamped to the int16 range, so no output
sample exceeds int16 bounds. -/
theorem c4_normalize_characterization (frames : List ℤ) :
    (audioop_max frames = 0 → normalize_audio_file frames = frames) ∧
    (target_level ≤ audioop_max frames → normalize_audio_file frames = frames) ∧
    (audioop_max frames ≠ 0 → audioop_max frames < target_level →
      normalize_audio_file frames =
        frames.map (fun s =>
          clamp16 ⌊(s : ℚ) * ((target_level : ℚ) / (audioop_max frames : ℚ))⌋) ∧
      ∀ y ∈ normalize_audio_file frames, -32768 ≤ y ∧ y ≤ 32767) := by
  refine ⟨fun h0 => ?_, fun hbig => ?_, fun hne hlt => ?_⟩
  · simp [normalize_audio_file, h0]
  · have hpos : (0 : ℤ) < audioop_max frames := by
      have := audioop_max_nonneg frames
      unfold target_level at hbig
      omega
    have hscale : (target_level : ℚ) / (audioop_max frames : ℚ) ≤ 1 := by
      rw [div_le_one (by exact_mod_cast hpos)]
      exact_mod_cast hbig
    simp [normalize_audio_file, hpos.ne', hscale]
  · have hpos : (0 : ℤ) < audioop_max frames :=
      lt_of_le_of_ne (audioop_max_nonneg frames) (Ne.symm hne)
    have hscale : ¬ ((target_level : ℚ) / (audioop_max frames : ℚ) ≤ 1) := by
      rw [not_le, lt_div_iff₀ (by exact_mod_cast hpos), one_mul]
      exact_mod_cast hlt
    constructor
    · simp [normalize_audio_file, hne, hscale, audioop_mul]
    · intro y hy
      simp only [normalize_audio_file, hne, if_false, hscale, if_neg,
        audioop_mul, List.mem_map] at hy
      obtain ⟨s, _, hs⟩ := hy
      rw [← hs]
      exact clamp16_bounds _

/-- Witness for `c4_normalize_characterization` on the boost branch: the
buffer `[16, 1]` has nonzero peak 16 below the target, and normalizing it
floors `1 × 1945.5` down to 1945. -/
theorem c4_normalize_characterization_w :
    normalize_audio_file [16, 1] = [31128, 1945] := by
  have h := ((c4_normalize_characterization [16, 1]).2.2 (by decide) (by decide)).1
  rw [h]
  decide

/-- Claim C5 (confirmed): `mix4_to_stereo_sum` produces exactly two output
samples per complete 4-channel frame (so `2f` samples for `f` frames), maps
the empty input to the empty output, and per frame emits the sum of the four
channel samples clamped to `[-32768, 32767]` into both output channels. -/
theorem c5_mix_sum_clamp :
    (∀ frames, (mix4_to_stereo_sum frames).length = 2 * frames.length) ∧
    mix4_to_stereo_sum [] = [] ∧
    (∀ (ch1 ch2 ch3 ch4 : ℤ) (rest : List (ℤ × ℤ × ℤ × ℤ)),
      mix4_to_stereo_sum ((ch1, ch2, ch3, ch4) :: rest) =
        clamp16 (ch1 + ch2 + ch3 + ch4) :: clamp16 (ch1 + ch2 + ch3 + ch4) ::
          mix4_to_stereo_sum rest) := by
  refine ⟨fun frames => ?_, rfl, fun ch1 ch2 ch3 ch4 rest => rfl⟩
  induction frames with
  | nil => rfl
  | cons f rest ih =>
      obtain ⟨a, b, c, d⟩ := f
      simp only [mix4_to_stereo_sum, List.length_cons, ih]
      ring

/-- The C2 scenario input: 3 blocks at level 15000 followed by 21 blocks at
level 0, fed from the idle state (block payloads are irrelevant to the
control flow and left empty). -/
def c2_trace : List (ℤ × List ℤ) :=
  List.replicate 3 ((15000 : ℤ), ([] : List ℤ)) ++
    List.replicate 21 ((0 : ℤ), ([] : List ℤ))

/-- Claim C2, counterexample: on the scenario input the capture loop closes
the segment with wall-clock duration 2.2s (the silent tail counts toward
`duration = time.time() - record_start_time`), which is not below the 0.7s
minimum — so the segment is *not* discarded and a delivery job *is* created. -/
theorem c2_scenario_counterexample :
    Effect.sendWebhookStereo ∈ (main_run true idleState c2_trace).2 ∧
    Effect.removeShort ∉ (main_run true idleState c2_trace).2 := by
  decide

/-- Claim C2 as amended: with threshold 10000, silence timeout 2.0s, minimum
0.7s and block duration 0.1s, feeding 3 blocks at level 15000 then 21 blocks
at level 0 from idle produces exactly one segment, closed with duration 2.2s
(≥ the 0.7s minimum, since the measured duration includes the 2.0s silent
tail); the segment is retained (converted to stereo and normalized) and one
delivery job is created, and the loop returns to idle. -/
theorem c2_scenario_retained :
    main_run true idleState c2_trace =
      (idleState,
        [Effect.openNewWav, Effect.writeFrames, Effect.showRec] ++
          List.replicate 22 Effect.writeFrames ++
          [Effect.closeWav (11 / 5), Effect.convertToStereo, Effect.normalizeStereo,
            Effect.sendWebhookStereo, Effect.removeRaw4ch, Effect.showReady]) ∧
    MIN_RECORD_SECONDS ≤ 11 / 5 := by
  decide

/-- Claim C3, counterexample to "the segment's backing file is retained":
for a segment closed with duration 2.2s ≥ the minimum, the completion code
deletes the raw 4-channel backing file (`os.remove(current_filename)`,
line 532) after the stereo conversion. -/
theorem c3_backing_file_deleted :
    Effect.removeRaw4ch ∈ close_segment true (11 / 5) := by
  decide

/-- Claim C3 as amended: for every segment whose accumulated silence reached
the timeout and whose duration is at least `MIN_RECORD_SECONDS`, exactly one
delivery job is created when delivery is enabled (none when disabled),
referencing the stereo conversion of the recording, which is retained; the
raw 4-channel backing file itself is deleted after conversion. -/
theorem c3_one_delivery_job_raw_deleted (webhook_enabled : Bool) (duration : ℚ)
    (h : MIN_RECORD_SECONDS ≤ duration) :
    (close_segment webhook_enabled duration).count Effect.sendWebhookStereo =
      (if webhook_enabled then 1 else 0) ∧
    Effect.convertToStereo ∈ close_segment webhook_enabled duration ∧
    Effect.removeRaw4ch ∈ close_segment webhook_enabled duration := by
  cases webhook_enabled <;>
    simp [close_segment, not_lt.mpr h, List.count_cons, List.count_append]

/-- Witness for `c3_one_delivery_job_raw_deleted` at duration 2.2s with
delivery enabled. -/
theorem c3_one_delivery_job_raw_deleted_w :
    (close_segment true (11 / 5)).count Effect.sendWebhookStereo =
      (if true then 1 else 0) ∧
    Effect.convertToStereo ∈ close_segment true (11 / 5) ∧
    Effect.removeRaw4ch ∈ close_segment true (11 / 5) :=
  c3_one_delivery_job_raw_deleted true (11 / 5) (by norm_num [MIN_RECORD_SECONDS])

/-- Claim C6 (confirmed): while idle, a block whose level reaches the
threshold opens a new segment whose first (and only) data is the triggering
block (no pre-roll), resets the start time and the accumulated silence to
zero, and transitions to recording; a block below the threshold leaves the
state unchanged and writes nothing. -/
theorem c6_idle_transition (webhook_enabled : Bool) (s : RecState) (level : ℤ)
    (data : List ℤ) (hidle : s.recording = false) :
    (THRESHOLD ≤ level →
      main_step webhook_enabled s level data =
        ({ recording := true, silence_time := 0, elapsed := 0, buffer := [data] },
          [Effect.openNewWav, Effect.writeFrames, Effect.showRec])) ∧
    (level < THRESHOLD →
      main_step webhook_enabled s level data = (s, [])) := by
  constructor
  · intro hlev
    simp [main_step, hidle, hlev]
  · intro hlev
    simp [main_step, hidle, not_le.mpr hlev]

/-- Witness for `c6_idle_transition`: from the initial idle state a block at
level 15000 ≥ 10000 opens a segment containing exactly that block. -/
theorem c6_idle_transition_w :
    main_step true idleState 15000 [1, 2, 3, 4] =
      ({ recording := true, silence_time := 0, elapsed := 0, buffer := [[1, 2, 3, 4]] },
        [Effect.openNewWav, Effect.writeFrames, Effect.showRec]) :=
  (c6_idle_transition true idleState 15000 [1, 2, 3, 4] rfl).1 (by decide)

/-- Claim C7 (confirmed): `send_webhook` issues at most two POSTs; the first
is always with TLS verification enabled; a second POST — with verification
disabled — is issued exactly when the first attempt fails with a TLS
verification error; every other first-attempt failure (connection error,
timeout, non-200 status, anything else) ends the job with a categorized
outcome and no retry.  The function is total into `WebhookOutcome`: every
exception category is caught, so no failure propagates (and it runs on a
daemon thread, detached from the capture loop). -/
theorem c7_delivery_retry_policy (first second : HttpResult) :
    (send_webhook first second).1.length ≤ 2 ∧
    ((send_webhook first second).1.length = 2 ↔ first = HttpResult.sslError) ∧
    (first = HttpResult.sslError →
      (send_webhook first second).1 = [⟨true⟩, ⟨false⟩]) ∧
    (first ≠ HttpResult.sslError → (send_webhook first second).1 = [⟨true⟩]) := by
  cases first with
  | ok status =>
      by_cases hs : status = 200 <;> simp [send_webhook, hs]
  | sslError =>
      cases second with
      | ok status => by_cases hs : status = 200 <;> simp [send_webhook, hs]
      | _ => simp [send_webhook]
  | _ => simp [send_webhook]

/-- Witness for `c7_delivery_retry_policy`: a first attempt failing with a
TLS error is followed by exactly one retry with verification disabled. -/
theorem c7_delivery_retry_policy_w :
    (send_webhook HttpResult.sslError (HttpResult.ok 200)).1 = [⟨true⟩, ⟨false⟩] :=
  (c7_delivery_retry_policy HttpResult.sslError (HttpResult.ok 200)).2.2.1 rfl

/-- A concrete device whose `display` call fails at render time (the
hardware initialised fine, then the bus write errors later). -/
def failing_device : OledDevice :=
  { width := 128, height := 64, displayResult := Except.error "i2c write failed" }

/-- Claim C8, counterexample: a failure of `device.display(img)` during a
ready/recording render is *not* swallowed — `show_ready`/`show_rec` have no
exception handling around the display call, so the error surfaces to the
caller (the capture loop). -/
theorem c8_render_failure_propagates :
    show_ready (some failing_device) = Except.error "i2c write failed" ∧
    show_rec (some failing_device) ≠ Except.ok () := by
  exact ⟨rfl, by simp [show_rec, failing_device]⟩

/-- Claim C8 as amended: failures at display *initialization* are swallowed
(`init_display` returns `None` and every later render is a no-op that cannot
fail), but a failure raised by the device's `display` call during a later
ready/recording render is not caught and propagates into the capture
pipeline. -/
theorem c8_display_failures_amended (e : String) (d : OledDevice) :
    init_display (Except.error e) = none ∧
    show_ready (none : Option OledDevice) = Except.ok () ∧
    show_rec (none : Option OledDevice) = Except.ok () ∧
    (d.displayResult = Except.error e →
      show_ready (some d) = Except.error e ∧ show_rec (some d) = Except.error e) := by
  exact ⟨rfl, rfl, rfl, fun h => ⟨h, h⟩⟩

/-- Witness for `c8_display_failures_amended` at the concrete failing device. -/
theorem c8_display_failures_amended_w :
    show_ready (some failing_device) = Except.error "i2c write failed" ∧
    show_rec (some failing_device) = Except.error "i2c write failed" :=
  (c8_display_failures_amended "i2c write failed" failing_device).2.2.2 rfl

/-- Claim C9 (confirmed): the `KeyboardInterrupt` shutdown handler finalizes
an active segment with exactly the same effects as the normal silence-timeout
completion: close the wav, apply the same minimum-duration check, convert /
normalize / deliver (or mark saved-locally) a long-enough segment and delete
its raw file, delete a too-short one, and show the ready screen — the segment
is never left half-written. -/
theorem c9_shutdown_finalize_equiv (webhook_enabled : Bool) (duration : ℚ) :
    interrupt_finalize webhook_enabled true duration =
      close_segment webhook_enabled duration := by
  rcases lt_or_le duration MIN_RECORD_SECONDS with h | h
  · simp [interrupt_finalize, close_segment, h, not_le.mpr h]
  · simp [interrupt_finalize, close_segment, h, not_lt.mpr h]

/-- Invariant of the capture loop: while recording, the accumulated silence
is nonnegative and never exceeds the wall-clock time elapsed since the
segment started (silence only accumulates while time passes). -/
def rec_inv (s : RecState) : Prop :=
  s.recording = true → 0 ≤ s.silence_time ∧ s.silence_time ≤ s.elapsed

theorem removeShort_not_mem_close_segment (webhook_enabled : Bool) (d : ℚ)
    (h : ¬ d < MIN_RECORD_SECONDS) :
    Effect.removeShort ∉ close_segment webhook_enabled d := by
  cases webhook_enabled <;> simp [close_segment, h]

theorem closeWav_mem_close_segment (webhook_enabled : Bool) (d e : ℚ)
    (h : Effect.closeWav e ∈ close_segment webhook_enabled d) : e = d := by
  by_cases hm : d < MIN_RECORD_SECONDS <;>
    cases webhook_enabled <;>
    simp [close_segment, hm] at h <;> exact h

theorem main_step_inv (webhook_enabled : Bool) (s : RecState) (level : ℤ)
    (data : List ℤ) (hs : rec_inv s) :
    rec_inv (main_step webhook_enabled s level data).1 ∧
    Effect.removeShort ∉ (main_step webhook_enabled s level data).2 ∧
    (∀ d : ℚ, Effect.closeWav d ∈ (main_step webhook_enabled s level data).2 →
      SILENCE_SECONDS ≤ d) := by
  by_cases hrec : s.recording = false
  · by_cases hlev : THRESHOLD ≤ level
    · refine ⟨?_, ?_, ?_⟩ <;> simp [main_step, hrec, hlev, rec_inv]
    · refine ⟨?_, ?_, ?_⟩ <;> simp [main_step, hrec, hlev]
      exact hs
  · have hrec' : s.recording = true := by
      revert hrec; cases s.recording <;> simp
    obtain ⟨hsil0, hsille⟩ := hs hrec'
    by_cases hlev : level < THRESHOLD
    · by_cases hclose : SILENCE_SECONDS ≤ s.silence_time + BLOCK_DURATION
      · have hd : SILENCE_SECONDS ≤ s.elapsed + BLOCK_DURATION :=
          le_trans hclose (add_le_add_right hsille _)
        have hmin : ¬ (s.elapsed + BLOCK_DURATION < MIN_RECORD_SECONDS) := by
          refine not_lt.mpr (le_trans ?_ hd)
          norm_num [MIN_RECORD_SECONDS, SILENCE_SECONDS]
        have heq : main_step webhook_enabled s level data =
            (idleState, Effect.writeFrames ::
              close_segment webhook_enabled (s.elapsed + BLOCK_DURATION)) := by
          simp [main_step, hrec', hlev, hclose]
        rw [heq]
        refine ⟨?_, ?_, ?_⟩
        · intro h
          simp [idleState] at h
        · intro h
          rcases List.mem_cons.mp h with h' | h'
          · cases h'
          · exact removeShort_not_mem_close_segment webhook_enabled _ hmin h'
        · intro d hd'
          rcases List.mem_cons.mp hd' with h' | h'
          · cases h'
          · rw [closeWav_mem_close_segment webhook_enabled _ _ h']
            exact hd
      · have heq : main_step webhook_enabled s level data =
            ({ recording := true, silence_time := s.silence_time + BLOCK_DURATION,
               elapsed := s.elapsed + BLOCK_DURATION, buffer := s.buffer ++ [data] },
              [Effect.writeFrames]) := by
          simp [main_step, hrec', hlev, hclose]
        rw [heq]
        refine ⟨fun _ => ⟨?_, ?_⟩, by simp, by simp⟩
        · exact add_nonneg hsil0 (by norm_num [BLOCK_DURATION])
        · exact add_le_add_right hsille _
    · have hclose : ¬ (SILENCE_SECONDS ≤ (0 : ℚ)) := by
        norm_num [SILENCE_SECONDS]
      have heq : main_step webhook_enabled s level data =
          ({ recording := true, silence_time := 0,
             elapsed := s.elapsed + BLOCK_DURATION, buffer := s.buffer ++ [data] },
            [Effect.writeFrames]) := by
        simp [main_step, hrec', hlev, hclose]
      rw [heq]
      refine ⟨fun _ => ⟨le_refl 0, ?_⟩, by simp, by simp⟩
      exact add_nonneg (le_trans hsil0 hsille) (by norm_num [BLOCK_DURATION])

theorem main_run_inv (webhook_enabled : Bool) :
    ∀ (trace : List (ℤ × List ℤ)) (s : RecState), rec_inv s →
      Effect.removeShort ∉ (main_run webhook_enabled s trace).2 ∧
      (∀ d : ℚ, Effect.closeWav d ∈ (main_run webhook_enabled s trace).2 →
        SILENCE_SECONDS ≤ d) := by
  intro trace
  induction trace with
  | nil => intro s _; simp [main_run]
  | cons block rest ih =>
      intro s hs
      obtain ⟨hinv, hshort, hclose⟩ :=
        main_step_inv webhook_enabled s block.1 block.2 hs
      obtain ⟨hshort', hclose'⟩ := ih _ hinv
      constructor
      · simp only [main_run, List.mem_append]
        rintro (h | h)
        · exact hshort h
        · exact hshort' h
      · intro d hd
        simp only [main_run, List.mem_append] at hd
        rcases hd with h | h
        · exact hclose d h
        · exact hclose' d h

/-- The shortest possible segment: one triggering block followed by exactly
enough silent blocks (20) to fire the silence timeout. -/
def c10_trace : List (ℤ × List ℤ) :=
  ((15000 : ℤ), ([] : List ℤ)) :: List.replicate 20 ((0 : ℤ), ([] : List ℤ))

/-- Claim C10, counterexample to the stated lower bound: a segment of one
triggering block followed by 20 silent blocks is closed by the silence
timeout with wall-clock duration exactly 2.0s = `SILENCE_SECONDS`, which is
strictly below `SILENCE_SECONDS + BLOCK_DURATION` (2.1s) — the claimed
"silenceTimeout plus one block duration" minimum does not hold. -/
theorem c10_duration_exactly_timeout :
    Effect.closeWav 2 ∈ (main_run true idleState c10_trace).2 ∧
    (2 : ℚ) < SILENCE_SECONDS + BLOCK_DURATION := by
  decide

/-- Claim C10 as amended: under the shipped configuration every segment
closed by the silence-timeout rule of the main capture loop has duration at
least `SILENCE_SECONDS` (2.0s) — not necessarily `SILENCE_SECONDS` plus one
block — which still exceeds `MIN_RECORD_SECONDS` (0.7s), so the too-short
discard branch of the main loop is unreachable from the idle start state;
the too-short discard remains reachable via the shutdown path. -/
theorem c10_no_short_discard_in_loop (webhook_enabled : Bool)
    (trace : List (ℤ × List ℤ)) :
    Effect.removeShort ∉ (main_run webhook_enabled idleState trace).2 ∧
    (∀ d : ℚ, Effect.closeWav d ∈ (main_run webhook_enabled idleState trace).2 →
      SILENCE_SECONDS ≤ d ∧ MIN_RECORD_SECONDS ≤ d) ∧
    Effect.removeShort ∈ interrupt_finalize webhook_enabled true (1 / 2) := by
  obtain ⟨hshort, hclose⟩ :=
    main_run_inv webhook_enabled trace idleState (by intro h; simp [idleState] at h)
  refine ⟨hshort, fun d hd => ?_, ?_⟩
  · have h2 := hclose d hd
    refine ⟨h2, le_trans ?_ h2⟩
    norm_num [MIN_RECORD_SECONDS, SILENCE_SECONDS]
  · cases webhook_enabled <;> decide

/-- Witness for `c10_no_short_discard_in_loop`: the minimal-length closure
of `c10_trace` has duration 2.0s, which satisfies both bounds. -/
theorem c10_no_short_discard_in_loop_w :
    SILENCE_SECONDS ≤ (2 : ℚ) ∧ MIN_RECORD_SECONDS ≤ (2 : ℚ) :=
  (c10_no_short_discard_in_loop true c10_trace).2.1 2 (by decide)

end DecideRat

end RpiRecorder
